import Mathlib

/-!
# Verification of the azcaptchaapi client (`azcaptchaapi/__init__.py`)

A shallow embedding of the AZCaptcha API client.  Python strings are modelled
as `List Char`; each network-touching operation is modelled as a pure function
that receives the transport outcome for the single HTTP call it makes
(`Except PyStr PyStr`: a `requests.RequestException` carrying its description,
or the response body `.text`) and returns the operation's outcome together
with the updated `Captcha` state and the number of network calls performed.

The Python exception flow is modelled by `Except ApiError`:
`_rewrite_http_to_com_err` turns any transport failure into
`communicationError` (fixed message, the cause is dropped), and
`_rewrite_to_format_err` turns the listed exception types (tuple-unpacking
`ValueError`s, `float` parse `ValueError`s) into `responseFormatError`.
A `ValueError` raised directly by `report_bad`'s precondition checks is not
rewritten by any decorator and surfaces as `usageError`.
-/

namespace AZCaptcha

/-- A Python string, modelled as its list of characters. -/
abbrev PyStr := List Char

/-- Shorthand turning a Lean string literal into the `PyStr` model. -/
def pyOf (s : String) : PyStr := s.toList

/-- The exception taxonomy of the client.  `communicationError` and
`responseFormatError` carry fixed messages in the source, so they carry no
payload here; `operationFailedError` is raised as
`OperationFailedError("Operation failed: %r" % (text,))`, so it carries the
raw response text; `usageError` models the plain `ValueError`s raised by
`report_bad`'s precondition checks, which no decorator rewrites. -/
inductive ApiError where
  | communicationError : ApiError
  | responseFormatError : ApiError
  | operationFailedError (rawText : PyStr) : ApiError
  | usageError (message : PyStr) : ApiError
deriving DecidableEq, Repr

/-- The `Captcha` object: `captcha_id`, `_cached_result` and `_reported_bad`,
as initialised by `Captcha.__init__`. -/
structure Captcha where
  captcha_id : PyStr
  cached_result : Option PyStr
  reported_bad : Bool
deriving DecidableEq, Repr

/-- Python's single-character containment test `c in text`. -/
def pyContains (s : PyStr) (c : Char) : Bool := s.contains c

/-- Python's `str.split(sep)` for a one-character separator: splits at every
occurrence, `"".split(sep) == [""]`, `"|".split("|") == ["", ""]`. -/
def pySplit (sep : Char) : PyStr → List PyStr
  | [] => [[]]
  | c :: rest =>
    if c = sep then [] :: pySplit sep rest
    else
      match pySplit sep rest with
      | [] => [[c]]
      | p :: ps => (c :: p) :: ps

/-- Model of Python's `html.unescape` (standard library, external to this
repository), restricted to the HTML character references exercised in this
development: the named references `amp`, `lt`, `gt`, `quot` and the decimal
numeric reference `&#124;` for the vertical bar.  Python additionally decodes
every other HTML5 named and numeric reference; no theorem below depends on
those. -/
def pyUnescape : PyStr → PyStr
  | '&' :: 'a' :: 'm' :: 'p' :: ';' :: rest => '&' :: pyUnescape rest
  | '&' :: 'l' :: 't' :: ';' :: rest => '<' :: pyUnescape rest
  | '&' :: 'g' :: 't' :: ';' :: rest => '>' :: pyUnescape rest
  | '&' :: 'q' :: 'u' :: 'o' :: 't' :: ';' :: rest => '"' :: pyUnescape rest
  | '&' :: '#' :: '1' :: '2' :: '4' :: ';' :: rest => '|' :: pyUnescape rest
  | c :: rest => c :: pyUnescape rest
  | [] => []

/-- Decimal digit string to `Nat`. -/
def digitsToNat (ds : PyStr) : Nat :=
  ds.foldl (fun a c => 10 * a + (c.toNat - 48)) 0

/-- A non-empty all-digit string, parsed; `none` otherwise. -/
def parseDigitsAll (s : PyStr) : Option Nat :=
  if s ≠ [] ∧ s.all Char.isDigit then some (digitsToNat s) else none

/-- Optional sign followed by digits that must use up the whole input. -/
def parseSignedDigits : PyStr → Option Int
  | '+' :: r => (parseDigitsAll r).map Int.ofNat
  | '-' :: r => (parseDigitsAll r).map (fun n => -(n : Int))
  | r => (parseDigitsAll r).map Int.ofNat

/-- The optional exponent suffix of a Python float literal: empty means
exponent `0`; otherwise `e`/`E`, optional sign, digits, nothing after. -/
def parseExp : PyStr → Option Int
  | [] => some 0
  | 'e' :: rest => parseSignedDigits rest
  | 'E' :: rest => parseSignedDigits rest
  | _ => none

/-- The exact rational `sgn * mant * 10 ^ e`, built with core `mkRat` so
that the kernel can evaluate it. -/
def ratOfParts (sgn : Int) (mant : Nat) (e : Int) : ℚ :=
  if 0 ≤ e then mkRat (sgn * (mant : Int) * (10 : Int) ^ e.toNat) 1
  else mkRat (sgn * (mant : Int)) ((10 : Nat) ^ (-e).toNat)

/-- Model of Python's `float(text)` (standard library, external to this
repository) on finite decimal literals: optional surrounding whitespace,
optional sign, digits with an optional fractional part (at least one digit
overall), optional decimal exponent.  The value is kept exact as a rational
instead of being rounded to a binary double.  Python additionally accepts
`inf`/`infinity`/`nan` spellings and underscore digit separators; no theorem
below depends on those. -/
def pyFloat (s0 : PyStr) : Option ℚ :=
  let s1 := ((s0.dropWhile Char.isWhitespace).reverse.dropWhile Char.isWhitespace).reverse
  let signed : Int × PyStr :=
    match s1 with
    | '+' :: r => (1, r)
    | '-' :: r => (-1, r)
    | r => (1, r)
  let sgn := signed.1
  let s2 := signed.2
  let ip := s2.takeWhile Char.isDigit
  let s3 := s2.dropWhile Char.isDigit
  match s3 with
  | '.' :: r =>
    let fp := r.takeWhile Char.isDigit
    let s4 := r.dropWhile Char.isDigit
    if ip = [] ∧ fp = [] then none
    else
      match parseExp s4 with
      | some e => some (ratOfParts sgn (digitsToNat (ip ++ fp)) (e - fp.length))
      | none => none
  | _ =>
    if ip = [] then none
    else
      match parseExp s3 with
      | some e => some (ratOfParts sgn (digitsToNat ip) e)
      | none => none

/-- Model of `AZCaptchaApi.get_balance`: `float(self.get(RES_URL, action=getbalance).text)`.
A transport failure becomes `communicationError` (outer decorator); a `float`
parse `ValueError` becomes `responseFormatError` (inner decorator). -/
def get_balance (resp : Except PyStr PyStr) : Except ApiError ℚ :=
  match resp with
  | .error _ => .error .communicationError
  | .ok text =>
    match pyFloat text with
    | some q => .ok q
    | none => .error .responseFormatError

/-- Model of `AZCaptchaApi.get_stats`: returns the raw XML body; transport failures
become `communicationError`.  (The `date` formatting applies to the request,
not the response, and is not needed by any claim.) -/
def get_stats (resp : Except PyStr PyStr) : Except ApiError PyStr :=
  match resp with
  | .error _ => .error .communicationError
  | .ok text => .ok text

/-- Model of `AZCaptchaApi.get_load`: returns the raw body; transport failures become
`communicationError`. -/
def get_load (resp : Except PyStr PyStr) : Except ApiError PyStr :=
  match resp with
  | .error _ => .error .communicationError
  | .ok text => .ok text

/-- Python `dict` insertion `d[k] = v` on an insertion-ordered association
list: updates the value in place when the key exists, appends otherwise. -/
def dictSet (d : List (String × String)) (k v : String) : List (String × String) :=
  if d.any (fun p => p.1 = k) then
    d.map (fun p => if p.1 = k then (k, v) else p)
  else d ++ [(k, v)]

/-- The form data POSTed by `AZCaptchaApi.solve`:
`captcha_parameters or {'method': 'post'}` (Python truthiness: `None` and the
empty dict both select the default), to which `AZCaptchaApi.post` adds
`data['key'] = self.api_key`. -/
def solve_post_data (apiKey : String) (captcha_parameters : Option (List (String × String))) :
    List (String × String) :=
  let d :=
    match captcha_parameters with
    | none => [("method", "post")]
    | some ps => if ps = [] then [("method", "post")] else ps
  dictSet d "key" apiKey

/-- The response handling of `AZCaptchaApi.solve`: if the body contains `|`,
`_, captcha_id = text.split('|')` (exactly two parts, a mismatch raising a
`ValueError` that the inner decorator turns into `responseFormatError`) and a
fresh `Captcha` is returned; otherwise `OperationFailedError` carries the raw
body.  Transport failures become `communicationError`. -/
def solve (resp : Except PyStr PyStr) : Except ApiError Captcha :=
  match resp with
  | .error _ => .error .communicationError
  | .ok text =>
    if pyContains text '|' then
      match pySplit '|' text with
      | [_, captcha_id] => .ok ⟨captcha_id, none, false⟩
      | _ => .error .responseFormatError
    else .error (.operationFailedError text)

/-- Model of `Captcha.try_get_result`.  Returns the outcome, the updated object state
and the number of network calls made.  A cached result is returned with no
network call.  Otherwise, on the body of the poll call: if the raw body
contains `|`, the body is HTML-unescaped and split on `|`
(`_, captcha_text = unescape(text).split('|')`; a shape other than two parts
raises a `ValueError` rewritten to `responseFormatError`), and the second
part is cached and returned; else the two not-ready sentinel spellings yield
`none` with no state change; else `OperationFailedError` carries the raw
body. -/
def try_get_result (c : Captcha) (resp : Except PyStr PyStr) :
    Except ApiError (Option PyStr) × Captcha × Nat :=
  match c.cached_result with
  | some r => (.ok (some r), c, 0)
  | none =>
    match resp with
    | .error _ => (.error .communicationError, c, 1)
    | .ok text =>
      if pyContains text '|' then
        match pySplit '|' (pyUnescape text) with
        | [_, captcha_text] =>
          (.ok (some captcha_text), { c with cached_result := some captcha_text }, 1)
        | _ => (.error .responseFormatError, c, 1)
      else if text = pyOf "CAPCHA_NOT_READY" ∨ text = pyOf "CAPTCHA_NOT_READY" then
        (.ok none, c, 1)
      else
        (.error (.operationFailedError text), c, 1)

/-- Driving `try_get_result` repeatedly, one transport outcome per call:
the list of outcomes, the final state and the total number of network calls.
A harness for the call-counting transport stub of the spec's testable
properties. -/
def try_get_result_many : Captcha → List (Except PyStr PyStr) →
    List (Except ApiError (Option PyStr)) × Captcha × Nat
  | c, [] => ([], c, 0)
  | c, resp :: rest =>
    match try_get_result c resp with
    | (out, c2, k) =>
      match try_get_result_many c2 rest with
      | (outs, c3, m) => (out :: outs, c3, k + m)

/-- Model of `Captcha.await_result(sleep_time)`: loop calling `try_get_result`, break
on a non-`None` result, otherwise `time.sleep(sleep_time)` and retry; an
exception propagates uncaught.  The transport is a list of outcomes consumed
one per poll; `none` models the loop still running when they are exhausted
(the real loop has no attempt cap).  Returns the final outcome, the final
state, the number of network calls and the list of sleep durations. -/
def await_result (c : Captcha) (responses : List (Except PyStr PyStr)) (sleep_time : ℚ) :
    Option (Except ApiError PyStr × Captcha × Nat × List ℚ) :=
  match c.cached_result with
  | some r => some (.ok r, c, 0, [])
  | none =>
    match responses with
    | [] => none
    | resp :: rest =>
      match try_get_result c resp with
      | (.error e, c2, k) => some (.error e, c2, k, [])
      | (.ok (some r), c2, k) => some (.ok r, c2, k, [])
      | (.ok none, c2, k) =>
        match await_result c2 rest sleep_time with
        | none => none
        | some (out, c3, polls, sleeps) => some (out, c3, k + polls, sleep_time :: sleeps)

/-- Model of `Captcha.report_bad`.  The two precondition checks raise plain
`ValueError`s (usage errors, before any network call); then the report call
is made and any body other than the literal `OK_REPORT_RECORDED` raises
`responseFormatError`.  The source never assigns `self._reported_bad = True`,
so the returned state is unchanged even on success. -/
def report_bad (c : Captcha) (resp : Except PyStr PyStr) :
    Except ApiError Unit × Captcha × Nat :=
  match c.cached_result with
  | none =>
    (.error (.usageError (pyOf "tried reporting bad state for captcha not yet retrieved")), c, 0)
  | some _ =>
    if c.reported_bad then
      (.error (.usageError (pyOf "tried double-reporting bad captcha")), c, 0)
    else
      match resp with
      | .error _ => (.error .communicationError, c, 1)
      | .ok text =>
        if text = pyOf "OK_REPORT_RECORDED" then (.ok (), c, 1)
        else (.error .responseFormatError, c, 1)

example : pySplit '|' (pyOf "OK|12345") = [pyOf "OK", pyOf "12345"] := by decide
example : pyUnescape (pyOf "OK|5&amp;6") = pyOf "OK|5&6" := by decide
example : pyUnescape (pyOf "&#124;x") = pyOf "|x" := by decide
example : pyFloat (pyOf "12.34") = some (12.34 : ℚ) := by
  rw [show (12.34 : ℚ) = Rat.ofScientific 1234 true 2 from rfl, Rat.ofScientific_true_def]
  decide
example : pyFloat (pyOf "ERROR_WRONG_USER_KEY") = none := by decide


/-! ## Helper lemmas -/

/-- A cached result is returned unchanged with no network call. -/
theorem try_get_result_cached (c : Captcha) (r : PyStr) (h : c.cached_result = some r)
    (resp : Except PyStr PyStr) : try_get_result c resp = (.ok (some r), c, 0) := by
  unfold try_get_result
  rw [h]

/-- Either not-ready sentinel spelling makes a fresh poll return `none` with
the state unchanged and one network call. -/
theorem try_get_result_sentinel (cid : PyStr) (rb : Bool) (s : PyStr)
    (hs : s = pyOf "CAPCHA_NOT_READY" ∨ s = pyOf "CAPTCHA_NOT_READY") :
    try_get_result ⟨cid, none, rb⟩ (.ok s) = (.ok none, ⟨cid, none, rb⟩, 1) := by
  rcases hs with h | h <;> subst h <;> rfl

/-- Consuming a prefix of not-ready sentinel responses adds `N` polls and `N`
sleeps in front of whatever the rest of the transport outcomes produce. -/
theorem await_result_sentinel_front (cid : PyStr) (rb : Bool) (q : ℚ) (s : PyStr)
    (hs : s = pyOf "CAPCHA_NOT_READY" ∨ s = pyOf "CAPTCHA_NOT_READY") :
    ∀ (N : ℕ) (rest : List (Except PyStr PyStr)),
      await_result ⟨cid, none, rb⟩ (List.replicate N (.ok s) ++ rest) q
        = match await_result ⟨cid, none, rb⟩ rest q with
          | none => none
          | some (out, c3, polls, sleeps) => some (out, c3, N + polls, List.replicate N q ++ sleeps)
  | 0, rest => by
    simp only [List.replicate, List.nil_append]
    cases h : await_result ⟨cid, none, rb⟩ rest q with
    | none => simp
    | some v => obtain ⟨out, c3, polls, sleeps⟩ := v; simp
  | N + 1, rest => by
    rw [List.replicate_succ, List.cons_append]
    conv_lhs => rw [await_result]
    rw [try_get_result_sentinel cid rb s hs]
    dsimp only
    rw [await_result_sentinel_front cid rb q s hs N rest]
    cases h : await_result ⟨cid, none, rb⟩ rest q with
    | none => simp
    | some v =>
      obtain ⟨out, c3, polls, sleeps⟩ := v
      simp only [List.replicate_succ, List.cons_append, Option.some.injEq, Prod.mk.injEq,
        eq_self_iff_true, true_and, and_true]
      omega

/-! ## The claims -/

/-- C1: the spec requires a successful `report_bad` to set `badReported`, so
that a second call raises a usage error.  The source's `report_bad` includes
the double-report guard but never assigns `self._reported_bad = True`, so on
a ticket with a cached result a successful report leaves the flag `false`
(first conjunct) and an immediate second call succeeds again instead of
raising the usage error (second conjunct): the guard is unreachable and the
code contradicts its own intent. -/
theorem C1_reported_bad_never_set :
    report_bad ⟨pyOf "12345", some (pyOf "hello"), false⟩ (.ok (pyOf "OK_REPORT_RECORDED"))
      = (.ok (), ⟨pyOf "12345", some (pyOf "hello"), false⟩, 1) ∧
    report_bad
      (report_bad ⟨pyOf "12345", some (pyOf "hello"), false⟩
        (.ok (pyOf "OK_REPORT_RECORDED"))).2.1
      (.ok (pyOf "OK_REPORT_RECORDED"))
      = (.ok (), ⟨pyOf "12345", some (pyOf "hello"), false⟩, 1) := by
  constructor <;> rfl

/-- C2: once `result` is cached, every `try_get_result` call returns the
cached string with zero network calls and leaves the state unchanged, and a
whole sequence of repeated calls returns that same value every time with zero
network calls in total. -/
theorem C2_cached_result_memoized (c : Captcha) (r : PyStr)
    (h : c.cached_result = some r) :
    (∀ resp, try_get_result c resp = (.ok (some r), c, 0)) ∧
    (∀ resps, try_get_result_many c resps
      = (resps.map (fun _ => Except.ok (some r)), c, 0)) := by
  refine ⟨fun resp => try_get_result_cached c r h resp, fun resps => ?_⟩
  induction resps with
  | nil => rfl
  | cons a t ih =>
    simp only [try_get_result_many, try_get_result_cached c r h a, ih, List.map_cons]

/-- Witness for C2 at a concrete resolved ticket. -/
theorem C2_cached_result_memoized_witness :
    try_get_result ⟨pyOf "7", some (pyOf "ans"), false⟩ (.ok (pyOf "x"))
      = (.ok (some (pyOf "ans")), ⟨pyOf "7", some (pyOf "ans"), false⟩, 0) ∧
    try_get_result_many ⟨pyOf "7", some (pyOf "ans"), false⟩ [.ok (pyOf "x"), .error (pyOf "down")]
      = ([.ok (some (pyOf "ans")), .ok (some (pyOf "ans"))],
          ⟨pyOf "7", some (pyOf "ans"), false⟩, 0) := by
  constructor
  · exact (C2_cached_result_memoized ⟨pyOf "7", some (pyOf "ans"), false⟩ (pyOf "ans") rfl).1
      (.ok (pyOf "x"))
  · exact (C2_cached_result_memoized ⟨pyOf "7", some (pyOf "ans"), false⟩ (pyOf "ans") rfl).2
      [.ok (pyOf "x"), .error (pyOf "down")]

/-- C3, counterexample: the claim decodes HTML entities first and then tests
the decoded body for `|`.  On the body `&#124;x` the decoded body is `|x`,
which contains `|` and splits into exactly the two parts `""` and `"x"`, so
the claim requires the result `"x"` to be returned and cached; the source
tests the raw body (which has no `|`) first and instead raises
`OperationFailedError` carrying the raw text, caching nothing. -/
theorem C3_decode_order_counterexample :
    pyContains (pyUnescape (pyOf "&#124;x")) '|' = true ∧
    pySplit '|' (pyUnescape (pyOf "&#124;x")) = [pyOf "", pyOf "x"] ∧
    try_get_result ⟨pyOf "1", none, false⟩ (.ok (pyOf "&#124;x"))
      = (.error (.operationFailedError (pyOf "&#124;x")), ⟨pyOf "1", none, false⟩, 1) := by
  refine ⟨by decide, by decide, by rfl⟩

/-- C3, amended: `try_get_result` tests the RAW poll body for `|`; if present
it decodes HTML entities and splits the decoded body, and when the split has
exactly two parts it returns and caches the second part (so the body
`OK|5&amp;6` yields the cached result `5&6`), while a split producing other
than two parts raises `ResponseFormatError`. -/
theorem C3_raw_pipe_then_unescape_split (cid : PyStr) (rb : Bool) (text p1 p2 : PyStr)
    (hpipe : pyContains text '|' = true) :
    (pySplit '|' (pyUnescape text) = [p1, p2] →
      try_get_result ⟨cid, none, rb⟩ (.ok text)
        = (.ok (some p2), ⟨cid, some p2, rb⟩, 1)) ∧
    ((pySplit '|' (pyUnescape text)).length ≠ 2 →
      try_get_result ⟨cid, none, rb⟩ (.ok text)
        = (.error .responseFormatError, ⟨cid, none, rb⟩, 1)) ∧
    try_get_result ⟨cid, none, rb⟩ (.ok (pyOf "OK|5&amp;6"))
      = (.ok (some (pyOf "5&6")), ⟨cid, some (pyOf "5&6"), rb⟩, 1) := by
  refine ⟨fun hsplit => ?_, fun hlen => ?_, by rfl⟩
  · simp [try_get_result, hpipe, hsplit]
  · rcases hl : pySplit '|' (pyUnescape text) with _ | ⟨a, _ | ⟨b, _ | ⟨c2, t⟩⟩⟩
    · simp [try_get_result, hpipe, hl]
    · simp [try_get_result, hpipe, hl]
    · rw [hl] at hlen; simp at hlen
    · simp [try_get_result, hpipe, hl]

/-- Witness for the amended C3 at a concrete two-part poll body. -/
theorem C3_raw_pipe_then_unescape_split_witness :
    try_get_result ⟨pyOf "9", none, false⟩ (.ok (pyOf "OK|ab"))
      = (.ok (some (pyOf "ab")), ⟨pyOf "9", some (pyOf "ab"), false⟩, 1) :=
  (C3_raw_pipe_then_unescape_split (pyOf "9") false (pyOf "OK|ab") (pyOf "OK") (pyOf "ab")
    (by decide)).1 (by decide)

/-- C4: on a poll body without `|`, either not-ready sentinel spelling makes
`try_get_result` return `none` with the ticket state untouched (one network
call, no retry), and both spellings behave identically; any other such body
raises `OperationFailedError` carrying the raw text, again with the state
untouched and no internal retry. -/
theorem C4_not_ready_sentinels (cid : PyStr) (rb : Bool) (text : PyStr)
    (hnopipe : pyContains text '|' = false) :
    ((text = pyOf "CAPCHA_NOT_READY" ∨ text = pyOf "CAPTCHA_NOT_READY") →
      try_get_result ⟨cid, none, rb⟩ (.ok text) = (.ok none, ⟨cid, none, rb⟩, 1)) ∧
    (text ≠ pyOf "CAPCHA_NOT_READY" → text ≠ pyOf "CAPTCHA_NOT_READY" →
      try_get_result ⟨cid, none, rb⟩ (.ok text)
        = (.error (.operationFailedError text), ⟨cid, none, rb⟩, 1)) := by
  constructor
  · exact fun hs => try_get_result_sentinel cid rb text hs
  · intro h1 h2
    simp [try_get_result, hnopipe, h1, h2]

/-- Witness for C4: both sentinel spellings on a fresh ticket, and a failure
code body. -/
theorem C4_not_ready_sentinels_witness :
    try_get_result ⟨pyOf "9", none, false⟩ (.ok (pyOf "CAPCHA_NOT_READY"))
      = (.ok none, ⟨pyOf "9", none, false⟩, 1) ∧
    try_get_result ⟨pyOf "9", none, false⟩ (.ok (pyOf "CAPTCHA_NOT_READY"))
      = (.ok none, ⟨pyOf "9", none, false⟩, 1) ∧
    try_get_result ⟨pyOf "9", none, false⟩ (.ok (pyOf "ERROR_CAPTCHA_UNSOLVABLE"))
      = (.error (.operationFailedError (pyOf "ERROR_CAPTCHA_UNSOLVABLE")),
          ⟨pyOf "9", none, false⟩, 1) :=
  ⟨(C4_not_ready_sentinels (pyOf "9") false (pyOf "CAPCHA_NOT_READY") (by decide)).1
      (Or.inl rfl),
    (C4_not_ready_sentinels (pyOf "9") false (pyOf "CAPTCHA_NOT_READY") (by decide)).1
      (Or.inr rfl),
    (C4_not_ready_sentinels (pyOf "9") false (pyOf "ERROR_CAPTCHA_UNSOLVABLE") (by decide)).2
      (by decide) (by decide)⟩

/-- C5: against a transport returning a not-ready sentinel `N` times and then
`OK|secret`, `await_result` returns `secret` after exactly `N + 1` poll calls
and `N` sleeps of `sleep_time` each; and an error arising on the final poll
-- a transport failure or a server failure code -- propagates immediately,
uncaught, still after `N` sleeps. -/
theorem C5_await_result_exact_polls (N : ℕ) (cid : PyStr) (q : ℚ) (s : PyStr)
    (hs : s = pyOf "CAPCHA_NOT_READY" ∨ s = pyOf "CAPTCHA_NOT_READY") :
    (await_result ⟨cid, none, false⟩
        (List.replicate N (.ok s) ++ [.ok (pyOf "OK|secret")]) q
      = some (.ok (pyOf "secret"), ⟨cid, some (pyOf "secret"), false⟩, N + 1,
          List.replicate N q)) ∧
    (∀ cause : PyStr,
      await_result ⟨cid, none, false⟩ (List.replicate N (.ok s) ++ [.error cause]) q
        = some (.error .communicationError, ⟨cid, none, false⟩, N + 1,
            List.replicate N q)) ∧
    (∀ bad : PyStr, pyContains bad '|' = false →
      bad ≠ pyOf "CAPCHA_NOT_READY" → bad ≠ pyOf "CAPTCHA_NOT_READY" →
      await_result ⟨cid, none, false⟩ (List.replicate N (.ok s) ++ [.ok bad]) q
        = some (.error (.operationFailedError bad), ⟨cid, none, false⟩, N + 1,
            List.replicate N q)) := by
  refine ⟨?_, fun cause => ?_, fun bad hb h1 h2 => ?_⟩
  · rw [await_result_sentinel_front cid false q s hs N _]
    have h1 : await_result ⟨cid, none, false⟩ [.ok (pyOf "OK|secret")] q
        = some (.ok (pyOf "secret"), ⟨cid, some (pyOf "secret"), false⟩, 1, []) := rfl
    rw [h1]
    simp
  · rw [await_result_sentinel_front cid false q s hs N _]
    have h1 : await_result ⟨cid, none, false⟩ [.error cause] q
        = some (.error .communicationError, ⟨cid, none, false⟩, 1, []) := rfl
    rw [h1]
    simp
  · rw [await_result_sentinel_front cid false q s hs N _]
    have h3 : try_get_result ⟨cid, none, false⟩ (.ok bad)
        = (.error (.operationFailedError bad), ⟨cid, none, false⟩, 1) := by
      simp [try_get_result, hb, h1, h2]
    have h4 : await_result ⟨cid, none, false⟩ [.ok bad] q
        = some (.error (.operationFailedError bad), ⟨cid, none, false⟩, 1, []) := by
      conv_lhs => rw [await_result]
      rw [h3]
    rw [h4]
    simp

/-- Witness for C5 at `N = 2`. -/
theorem C5_await_result_exact_polls_witness :
    await_result ⟨pyOf "9", none, false⟩
        (List.replicate 2 (.ok (pyOf "CAPCHA_NOT_READY")) ++ [.ok (pyOf "OK|secret")]) 1
      = some (.ok (pyOf "secret"), ⟨pyOf "9", some (pyOf "secret"), false⟩, 2 + 1,
          List.replicate 2 1) :=
  (C5_await_result_exact_polls 2 (pyOf "9") 1 (pyOf "CAPCHA_NOT_READY") (Or.inl rfl)).1

/-- C6: a submission response body containing exactly one `|` that splits as
`OK` then an id yields a fresh `Captcha` holding that id (in particular
`OK|12345` yields the ticket id `12345`), and a body without `|` raises
`OperationFailedError` carrying exactly that raw body. -/
theorem C6_solve_response (text cid : PyStr) :
    (pyContains text '|' = true → pySplit '|' text = [pyOf "OK", cid] →
      solve (.ok text) = .ok ⟨cid, none, false⟩) ∧
    (pyContains text '|' = false →
      solve (.ok text) = .error (.operationFailedError text)) ∧
    solve (.ok (pyOf "OK|12345")) = .ok ⟨pyOf "12345", none, false⟩ := by
  refine ⟨fun hp hs => ?_, fun hn => ?_, by rfl⟩
  · simp [solve, hp, hs]
  · simp [solve, hn]

/-- Witness for C6: a concrete success body and a concrete `|`-free failure
body. -/
theorem C6_solve_response_witness :
    solve (.ok (pyOf "OK|777")) = .ok ⟨pyOf "777", none, false⟩ ∧
    solve (.ok (pyOf "ERROR_ZERO_BALANCE"))
      = .error (.operationFailedError (pyOf "ERROR_ZERO_BALANCE")) :=
  ⟨(C6_solve_response (pyOf "OK|777") (pyOf "777")).1 (by decide) (by decide),
    (C6_solve_response (pyOf "ERROR_ZERO_BALANCE") (pyOf "")).2.1 (by decide)⟩

/-- C7: whatever its description, a transport failure surfaces from every
network-touching operation as the payload-free `communicationError` --
`get_balance`, `get_stats`, `get_load`, `solve`, a fresh-ticket
`try_get_result`, a `report_bad` whose preconditions hold, and hence
`await_result` -- uniformly, with the underlying cause dropped. -/
theorem C7_transport_failure_uniform (cause : PyStr) :
    get_balance (.error cause) = .error .communicationError ∧
    get_stats (.error cause) = .error .communicationError ∧
    get_load (.error cause) = .error .communicationError ∧
    solve (.error cause) = .error .communicationError ∧
    (∀ (cid : PyStr) (rb : Bool),
      try_get_result ⟨cid, none, rb⟩ (.error cause)
        = (.error .communicationError, ⟨cid, none, rb⟩, 1)) ∧
    (∀ (cid r : PyStr),
      report_bad ⟨cid, some r, false⟩ (.error cause)
        = (.error .communicationError, ⟨cid, some r, false⟩, 1)) ∧
    (∀ (cid : PyStr) (q : ℚ),
      await_result ⟨cid, none, false⟩ [.error cause] q
        = some (.error .communicationError, ⟨cid, none, false⟩, 1, [])) :=
  ⟨rfl, rfl, rfl, rfl, fun _ _ => rfl, fun _ _ => rfl, fun _ _ => rfl⟩

/-- Witness for C7 at a concrete failure description. -/
theorem C7_transport_failure_uniform_witness :
    get_balance (.error (pyOf "connection refused")) = .error .communicationError ∧
    await_result ⟨pyOf "9", none, false⟩ [.error (pyOf "connection refused")] 1
      = some (.error .communicationError, ⟨pyOf "9", none, false⟩, 1, []) :=
  ⟨(C7_transport_failure_uniform (pyOf "connection refused")).1,
    (C7_transport_failure_uniform (pyOf "connection refused")).2.2.2.2.2.2 (pyOf "9") 1⟩

/-- C8: with the preconditions satisfied (result cached, not yet reported),
`report_bad` succeeds exactly when the response body is the literal
`OK_REPORT_RECORDED`, and any other body raises `ResponseFormatError`. -/
theorem C8_report_bad_literal_check (cid r text : PyStr) :
    ((report_bad ⟨cid, some r, false⟩ (.ok text)).1 = .ok () ↔
      text = pyOf "OK_REPORT_RECORDED") ∧
    (text ≠ pyOf "OK_REPORT_RECORDED" →
      report_bad ⟨cid, some r, false⟩ (.ok text)
        = (.error .responseFormatError, ⟨cid, some r, false⟩, 1)) := by
  constructor
  · constructor
    · intro h
      by_contra hne
      simp [report_bad, hne] at h
    · intro h
      subst h
      rfl
  · intro hne
    simp [report_bad, hne]

/-- Witness for C8: the exact literal succeeds, a near-miss body raises
`ResponseFormatError`. -/
theorem C8_report_bad_literal_check_witness :
    ((report_bad ⟨pyOf "9", some (pyOf "ans"), false⟩ (.ok (pyOf "OK_REPORT_RECORDED"))).1
      = .ok ()) ∧
    report_bad ⟨pyOf "9", some (pyOf "ans"), false⟩ (.ok (pyOf "OK_REPORT_RECORDED "))
      = (.error .responseFormatError, ⟨pyOf "9", some (pyOf "ans"), false⟩, 1) :=
  ⟨(C8_report_bad_literal_check (pyOf "9") (pyOf "ans") (pyOf "OK_REPORT_RECORDED")).1.mpr
      rfl,
    (C8_report_bad_literal_check (pyOf "9") (pyOf "ans") (pyOf "OK_REPORT_RECORDED ")).2
      (by decide)⟩

/-- C9: `get_balance` parses the body as a decimal number, returning it
exactly (body `12.34` gives the rational `12.34`), and every body the float
parse rejects -- such as `ERROR_WRONG_USER_KEY` -- raises
`ResponseFormatError`. -/
theorem C9_get_balance_parse (text : PyStr) :
    get_balance (.ok (pyOf "12.34")) = .ok (12.34 : ℚ) ∧
    (pyFloat text = none → get_balance (.ok text) = .error .responseFormatError) ∧
    pyFloat (pyOf "ERROR_WRONG_USER_KEY") = none ∧
    get_balance (.ok (pyOf "ERROR_WRONG_USER_KEY")) = .error .responseFormatError := by
  refine ⟨?_, fun h => ?_, by decide, by rfl⟩
  · rw [show (12.34 : ℚ) = Rat.ofScientific 1234 true 2 from rfl, Rat.ofScientific_true_def]
    rfl
  · unfold get_balance
    dsimp only
    rw [h]

/-- Witness for C9 at the documented error body. -/
theorem C9_get_balance_parse_witness :
    get_balance (.ok (pyOf "ERROR_WRONG_USER_KEY")) = .error .responseFormatError :=
  (C9_get_balance_parse (pyOf "ERROR_WRONG_USER_KEY")).2.1 (by decide)

/-- C10: with `captcha_parameters` absent (`None`) or the empty dict, the
POSTed form data is exactly the default method field plus the credential key;
a non-empty dict is sent as-is (plus the key the transport layer always
adds), fully replacing the default, so no method field is merged in. -/
theorem C10_solve_form_data (apiKey : String) (ps : List (String × String)) :
    solve_post_data apiKey none = [("method", "post"), ("key", apiKey)] ∧
    solve_post_data apiKey (some []) = [("method", "post"), ("key", apiKey)] ∧
    (ps ≠ [] → solve_post_data apiKey (some ps) = dictSet ps "key" apiKey) ∧
    (ps ≠ [] → (∀ p ∈ ps, p.1 ≠ "method") →
      ∀ p ∈ solve_post_data apiKey (some ps), p.1 ≠ "method") := by
  refine ⟨?_, ?_, fun h => ?_, fun h hm p hp => ?_⟩
  · simp [solve_post_data, dictSet]
  · simp [solve_post_data, dictSet]
  · simp [solve_post_data, h]
  · have hq : p ∈ dictSet ps "key" apiKey := by
      simpa [solve_post_data, h] using hp
    unfold dictSet at hq
    by_cases hk : (ps.any (fun q => q.1 = "key")) = true
    · rw [if_pos hk] at hq
      obtain ⟨q, hq1, hq2⟩ := List.mem_map.mp hq
      by_cases hqk : q.1 = "key"
      · rw [if_pos hqk] at hq2
        subst hq2
        simp
      · rw [if_neg hqk] at hq2
        subst hq2
        exact hm q hq1
    · rw [if_neg hk] at hq
      rcases List.mem_append.mp hq with h1 | h1
      · exact hm p h1
      · simp at h1
        subst h1
        simp

/-- Witness for C10 at a concrete non-empty parameter dict. -/
theorem C10_solve_form_data_witness :
    solve_post_data "k" (some [("body", "1")]) = dictSet [("body", "1")] "key" "k" :=
  (C10_solve_form_data "k" [("body", "1")]).2.2.1 (by simp)

end AZCaptcha
